import Mathlib

/-!
Verification development for the MediaDownloader desktop application.

The application (Python / PyQt6) downloads media through the external
yt-dlp tool.  The definitions below are a shallow embedding of the
decision logic of the entry points (main.pyw and its variants), of the
main-window close handler (MediaDownloaderApp.pyw), and of the download
coordinator described by the project documentation.  External effects
(subprocess execution, the Windows registry, the Qt dialog) are passed
in as explicit outcome values, so every function is a total, executable
Lean function mirroring the Python control flow.
-/

/-- A Python exception, as seen by a try/except block: either the
subprocess timeout raised by subprocess.run, or any other exception. -/
inductive PyExn where
  | timeoutExpired : PyExn
  | other (msg : String) : PyExn
deriving DecidableEq, Repr

/-! ## System theme detection (main.pyw, _get_system_theme) -/

/-- Result of reading the AppsUseLightTheme registry value: the access
either yields an integer value or raises. -/
inductive RegRead where
  | value (v : Int) : RegRead
  | readError (msg : String) : RegRead
deriving DecidableEq, Repr

/-- The try-block body of _get_system_theme.  On win32 it reads the
registry and returns light/dark according to the value (a raising read
becomes an error); on any other platform the if is skipped and the body
produces no result (`none`), falling through to the final return. -/
def getSystemThemeBody (platform : String) (reg : RegRead) :
    Except PyExn (Option String) :=
  if platform = "win32" then
    match reg with
    | .value v => .ok (some (if v = 1 then "light" else "dark"))
    | .readError m => .error (.other m)
  else .ok none

/-- _get_system_theme: the try body, with the bare `except Exception:
pass` handler and the final `return "dark"` fallback. -/
def getSystemTheme (platform : String) (reg : RegRead) : String :=
  match getSystemThemeBody platform reg with
  | .ok (some t) => t
  | .ok none => "dark"
  | .error _ => "dark"

/-! ## Startup theme application (main.pyw, main) -/

/-- Which qdarktheme API surface is available at runtime, or how the
attempt to use it fails:  setup_theme present, only load_stylesheet
present, module present but with neither attribute, the import fails,
or applying the theme raises. -/
inductive ThemeApiShape where
  | setupTheme : ThemeApiShape
  | loadStylesheet : ThemeApiShape
  | neitherAttr : ThemeApiShape
  | importFailed : ThemeApiShape
  | applyRaised (msg : String) : ThemeApiShape
deriving DecidableEq, Repr

/-- The style the startup code ends up applying to the QApplication. -/
inductive AppliedStyle where
  | setup (theme : String) : AppliedStyle
  | stylesheet (theme : String) : AppliedStyle
  | fusion : AppliedStyle
deriving DecidableEq, Repr

/-- The theme-application step of main(): the configured value is first
rewritten from the legacy "system" to "auto", then handed to whichever
qdarktheme API is available; load_stylesheet resolves "auto" through
the system-theme probe; every failure path falls back to Fusion. -/
def applyStartupTheme (api : ThemeApiShape) (systemTheme : String)
    (configured : String) : AppliedStyle :=
  let theme := if configured = "system" then "auto" else configured
  match api with
  | .setupTheme => .setup theme
  | .loadStylesheet =>
      .stylesheet (if theme = "auto" then systemTheme else theme)
  | .neitherAttr => .fusion
  | .importFailed => .fusion
  | .applyRaised _ => .fusion

/-! ## Main-window close handler (MediaDownloaderApp.pyw, closeEvent) -/

/-- The user's answer to the "Downloads in Progress" confirmation
dialog. -/
inductive Answer where
  | yes : Answer
  | no : Answer
deriving DecidableEq, Repr

/-- What closeEvent did: whether the close event was accepted, whether
ThreadPoolManager.shutdown() was invoked, and the resulting thread-pool
state. -/
structure CloseResult (P : Type) where
  accepted : Bool
  shutdownCalled : Bool
  pool : P
deriving DecidableEq, Repr

/-- closeEvent: when downloads are active the confirmation dialog is
shown, and a No answer ignores the event and returns at once; in every
other case the pool is shut down and the event accepted.  The pool and
its shutdown operation are abstract parameters, since only the handler
itself lives in this file's scope. -/
def closeEvent {P : Type} (shutdownFn : P → P) (pool : P)
    (hasActive : Bool) (ans : Answer) : CloseResult P :=
  if hasActive then
    match ans with
    | .no => ⟨false, false, pool⟩
    | .yes => ⟨true, true, shutdownFn pool⟩
  else ⟨true, true, shutdownFn pool⟩

/-! ## yt-dlp auto-update on startup (main.pyw, auto_update_yt_dlp) -/

/-- What the updater decides to do before any subprocess runs: bail out
because the channel is "none", bail out logging an error because no
yt-dlp executable could be located, or launch a subprocess with the
given argument vector and timeout (seconds). -/
inductive UpdateAction where
  | disabled : UpdateAction
  | noExe : UpdateAction
  | launch (cmd : List String) (timeoutSecs : Nat) : UpdateAction
deriving DecidableEq, Repr

/-- The three-stage executable lookup of auto_update_yt_dlp: the
module-level cached path, the path after check_yt_dlp_available has
run, and finally shutil.which, each consulted only when the previous
stage produced nothing. -/
def locateYtDlp (cached afterCheck whichResult : Option String) :
    Option String :=
  match cached with
  | some e => some e
  | none =>
      match afterCheck with
      | some e => some e
      | none => whichResult

/-- The pre-subprocess part of auto_update_yt_dlp: a "none" channel
returns immediately; otherwise the executable is located, a missing
executable logs an error and returns, and a located one yields the
subprocess invocation: target plus --update-to nightly for the nightly
channel and target plus -U for every other channel, with the 120-second
timeout passed to subprocess.run. -/
def autoUpdateYtDlpPlan (channel : String)
    (cached afterCheck whichResult : Option String) : UpdateAction :=
  if channel = "none" then .disabled
  else
    match locateYtDlp cached afterCheck whichResult with
    | none => .noExe
    | some exe =>
        .launch
          (if channel = "nightly" then [exe, "--update-to", "nightly"]
           else [exe, "-U"])
          120

/-- Outcome of the subprocess.run call inside the updater's try block:
a completed process with its return code and captured streams, the
TimeoutExpired exception, or any other raised exception. -/
inductive ProcOutcome where
  | completed (returncode : Int) (stdout stderr : String) : ProcOutcome
  | timedOut : ProcOutcome
  | raised (msg : String) : ProcOutcome
deriving DecidableEq, Repr

/-- The log record the updater leaves behind. -/
inductive UpdateLog where
  | upToDate : UpdateLog
  | updated : UpdateLog
  | updateFailed (output : String) : UpdateLog
  | timedOutLogged : UpdateLog
  | exnLogged : UpdateLog
deriving DecidableEq, Repr

/-- The substring the updater greps the subprocess output for. -/
def upToDateMarker : String := "is up to date"

/-- Python's `pat in s` substring test: splitting on the pattern yields
more than one piece exactly when the pattern occurs. -/
def containsText (s pat : String) : Bool :=
  decide (1 < (s.splitOn pat).length)

/-- The try-block body of the yt-dlp updater: a completed process is
classified by return code and output, while a timeout or any other
subprocess failure is a raised exception escaping the body. -/
def runYtDlpUpdate (o : ProcOutcome) : Except PyExn UpdateLog :=
  match o with
  | .completed rc out err =>
      let output := out ++ "\n" ++ err
      if rc = 0 then
        if containsText output upToDateMarker then .ok .upToDate
        else .ok .updated
      else .ok (.updateFailed output)
  | .timedOut => .error .timeoutExpired
  | .raised m => .error (.other m)

/-- The updater's except clauses: TimeoutExpired is logged, and the
bare `except Exception` catches everything else.  `none` would mean an
exception this handler does not catch. -/
def ytDlpExceptClauses : PyExn → Option UpdateLog
  | .timeoutExpired => some .timedOutLogged
  | .other _ => some .exnLogged

/-- auto_update_yt_dlp's supervised subprocess step: the try body with
its except clauses; an error not matched by a clause would propagate
out of the updater. -/
def autoUpdateYtDlpResult (o : ProcOutcome) : Except PyExn UpdateLog :=
  match runYtDlpUpdate o with
  | .ok ev => .ok ev
  | .error e =>
      match ytDlpExceptClauses e with
      | some ev => .ok ev
      | none => .error e

/-! ## gallery-dl auto-update on startup (main.pyw, auto_update_gallery_dl) -/

/-- Outcome of the call to download_gallery_dl_update: it returns a
(status, message) pair or raises. -/
inductive GdlOutcome where
  | returned (status message : String) : GdlOutcome
  | raised (msg : String) : GdlOutcome
deriving DecidableEq, Repr

/-- The log record auto_update_gallery_dl leaves behind. -/
inductive GdlLog where
  | successLogged (message : String) : GdlLog
  | upToDateLogged (message : String) : GdlLog
  | warnLogged (status message : String) : GdlLog
  | exnLogged : GdlLog
deriving DecidableEq, Repr

/-- The try-block body of auto_update_gallery_dl: a returned status is
logged as info (success, up_to_date) or as a warning (anything else);
a raise escapes the body. -/
def galleryDlBody (o : GdlOutcome) : Except PyExn GdlLog :=
  match o with
  | .returned status message =>
      if status = "success" then .ok (.successLogged message)
      else if status = "up_to_date" then .ok (.upToDateLogged message)
      else .ok (.warnLogged status message)
  | .raised m => .error (.other m)

/-- auto_update_gallery_dl: the try body under its single bare
`except Exception` clause, which logs and swallows every exception. -/
def autoUpdateGalleryDl (o : GdlOutcome) : Except PyExn GdlLog :=
  match galleryDlBody o with
  | .ok ev => .ok ev
  | .error _ => .ok .exnLogged

/-! ## Download coordinator (core/download_manager.py) -/

/-- Modelled from the spec: the download coordinator's concurrency
state in core/download_manager.py, which is not among the given source
files — the number of worker slots (the user-configurable concurrency
limit) and the number of simultaneously running downloads. -/
structure DMState where
  limit : Nat
  active : Nat
deriving DecidableEq, Repr

/-- Modelled from the spec: the coordinator's startup state for a
persisted concurrency setting — the limit is capped at 4 on app
startup and no download is running yet. -/
def initDMState (configured : Nat) : DMState :=
  ⟨min configured 4, 0⟩

/-- Modelled from the spec: one transition of the coordinator — a
queued download starts only when a worker slot is free, an active
download finishes, or the user raises the limit in the UI, clamped at
8 during a running session. -/
inductive DMStep : DMState → DMState → Prop where
  | start (s : DMState) (h : s.active < s.limit) :
      DMStep s ⟨s.limit, s.active + 1⟩
  | finish (s : DMState) (h : 0 < s.active) :
      DMStep s ⟨s.limit, s.active - 1⟩
  | raiseLimit (s : DMState) (n : Nat) (h : s.limit ≤ n) :
      DMStep s ⟨min n 8, s.active⟩

/-- The coordinator states reachable from some startup state. -/
inductive DMReachable : DMState → Prop where
  | init (configured : Nat) : DMReachable (initDMState configured)
  | step {s t : DMState} : DMReachable s → DMStep s t → DMReachable t

/-- Modelled from the spec: the lifecycle stages of one download in
core/download_manager.py — queued, active, downloaded into the temp
directory, file-stability check passed, moved to the output directory,
recorded in the archive. -/
inductive Stage where
  | queued : Stage
  | active : Stage
  | tempDownloaded : Stage
  | stabilityChecked : Stage
  | movedToOutput : Stage
  | archived : Stage
deriving DecidableEq, Repr

/-- Position of a stage in the lifecycle. -/
def stageRank : Stage → Nat
  | .queued => 0
  | .active => 1
  | .tempDownloaded => 2
  | .stabilityChecked => 3
  | .movedToOutput => 4
  | .archived => 5

/-- Modelled from the spec: the lifecycle transitions of one download,
parameterised by the outcome of its file-stability check.  The file may
only enter the stability-checked stage when the check succeeded, may
only be moved to the output directory from the stability-checked stage,
and may only be recorded in the archive once moved. -/
inductive LStep (checkOk : Bool) : Stage → Stage → Prop where
  | dequeue : LStep checkOk .queued .active
  | download : LStep checkOk .active .tempDownloaded
  | verify (h : checkOk = true) :
      LStep checkOk .tempDownloaded .stabilityChecked
  | move : LStep checkOk .stabilityChecked .movedToOutput
  | record : LStep checkOk .movedToOutput .archived

/-- The remaining lifecycle from a given stage onward. -/
def stagesFrom : Stage → List Stage
  | .queued => [.queued, .active, .tempDownloaded, .stabilityChecked,
      .movedToOutput, .archived]
  | .active => [.active, .tempDownloaded, .stabilityChecked,
      .movedToOutput, .archived]
  | .tempDownloaded => [.tempDownloaded, .stabilityChecked,
      .movedToOutput, .archived]
  | .stabilityChecked => [.stabilityChecked, .movedToOutput, .archived]
  | .movedToOutput => [.movedToOutput, .archived]
  | .archived => [.archived]

/-- Modelled from the spec: the coordinator's file-system and archive
state — the set of completed files still in the temp directory, the
set of files in the output directory, and the set of archive records. -/
structure FsState where
  temp : Finset String
  output : Finset String
  archive : Finset String
deriving DecidableEq

/-- Modelled from the spec: the idempotent move of a completed file
from the temp directory to the output directory.  A file already in
the output directory and gone from temp is left alone and reported
moved; a file still in temp is moved; a file in neither place is a
failure.  The Bool is the reported success. -/
def moveToOutput (s : FsState) (f : String) : FsState × Bool :=
  if f ∈ s.output ∧ f ∉ s.temp then (s, true)
  else if f ∈ s.temp then
    ({ s with temp := s.temp.erase f, output := insert f s.output }, true)
  else (s, false)

/-- Modelled from the spec: recording a completed download in the
archive — inserting its identifier into the archive set, which
succeeds whether or not the record already exists. -/
def recordArchive (s : FsState) (f : String) : FsState × Bool :=
  ({ s with archive := insert f s.archive }, true)

/-! ## yt-dlp argument construction (core/yt_dlp_worker.py) -/

/-- The two kinds of media download the program performs. -/
inductive MediaKind where
  | audio : MediaKind
  | video : MediaKind
deriving DecidableEq, Repr

/-- Modelled from the spec: the yt-dlp argument vector built by
core/yt_dlp_worker.py, not among the given source files.  Every
download points yt-dlp at the external ffmpeg tool and asks it to
embed metadata and the downloaded thumbnail; audio downloads
additionally extract audio, video downloads select a video format. -/
def buildDownloadArgs (kind : MediaKind) (url ffmpegLocation : String) :
    List String :=
  ["--ffmpeg-location", ffmpegLocation] ++
    (match kind with
     | .audio => ["-x", "--audio-format", "mp3"]
     | .video => ["-f", "bestvideo+bestaudio/best"]) ++
    ["--embed-metadata", "--embed-thumbnail", url]

/-! ## Theorems -/

/-- An Except value built with ok reports isOk. -/
theorem except_ok_isOk {ε α : Type} (a : α) :
    (Except.ok a : Except ε α).isOk = true := rfl

/-- Claim C9: _get_system_theme is total and two-valued.  It returns
"light" exactly when the platform is win32 and the registry read yields
the value 1; in every other situation — other value, raising read, or a
non-Windows platform — it returns "dark", and no exception escapes. -/
theorem getSystemTheme_total_two_valued (platform : String) (reg : RegRead) :
    (getSystemTheme platform reg = "light" ∨
      getSystemTheme platform reg = "dark") ∧
    (getSystemTheme platform reg = "light" ↔
      platform = "win32" ∧ reg = RegRead.value 1) := by
  constructor
  · by_cases hp : platform = "win32"
    · cases reg with
      | value v =>
          by_cases hv : v = 1
          · left; simp [getSystemTheme, getSystemThemeBody, hp, hv]
          · right; simp [getSystemTheme, getSystemThemeBody, hp, hv]
      | readError m =>
          right; simp [getSystemTheme, getSystemThemeBody, hp]
    · right; simp [getSystemTheme, getSystemThemeBody, hp]
  · constructor
    · intro h
      by_cases hp : platform = "win32"
      · cases reg with
        | value v =>
            by_cases hv : v = 1
            · exact ⟨hp, by rw [hv]⟩
            · exfalso
              simp [getSystemTheme, getSystemThemeBody, hp, hv] at h
        | readError m =>
            exfalso
            simp [getSystemTheme, getSystemThemeBody, hp] at h
      · exfalso
        simp [getSystemTheme, getSystemThemeBody, hp] at h
    · rintro ⟨hp, hr⟩
      subst hr
      simp [getSystemTheme, getSystemThemeBody, hp]

/-- Claim C10: the legacy persisted theme value "system" is rewritten to
"auto" before the theme is applied, so startup with configured theme
"system" applies exactly the same style as startup with "auto", for
every available qdarktheme API shape and every detected system theme. -/
theorem applyStartupTheme_system_eq_auto (api : ThemeApiShape)
    (systemTheme : String) :
    applyStartupTheme api systemTheme ("system") =
      applyStartupTheme api systemTheme ("auto") := by
  cases api <;> simp [applyStartupTheme]

/-- Claim C8: the close event is accepted and the thread pool shut down
exactly when no downloads are active or the user confirms with Yes; with
active downloads and a No answer the event is ignored, shutdown is not
called, and the pool state is returned unchanged. -/
theorem closeEvent_spec {P : Type} (shutdownFn : P → P) (pool : P)
    (hasActive : Bool) (ans : Answer) :
    ((closeEvent shutdownFn pool hasActive ans).accepted = true ∧
        (closeEvent shutdownFn pool hasActive ans).shutdownCalled = true ↔
      hasActive = false ∨ ans = Answer.yes) ∧
    (hasActive = true → ans = Answer.no →
      closeEvent shutdownFn pool hasActive ans =
        ⟨false, false, pool⟩) := by
  cases hasActive <;> cases ans <;> simp [closeEvent]

/-- Witness for claim C8 at a concrete pool: with an active download and
a No answer, the event is ignored and the pool value 0 is unchanged. -/
theorem closeEvent_spec_witness :
    closeEvent Nat.succ 0 true Answer.no = ⟨false, false, 0⟩ :=
  (closeEvent_spec Nat.succ 0 true Answer.no).2 rfl rfl

/-- Claim C4: the startup yt-dlp updater launches no subprocess and
returns at once on channel "none"; with a located executable it runs it
with --update-to nightly exactly for the nightly channel and with -U
for every other channel; and when no executable is located it launches
nothing and logs an error. -/
theorem autoUpdateYtDlpPlan_spec (channel : String)
    (cached afterCheck whichResult : Option String) :
    (channel = "none" →
      autoUpdateYtDlpPlan channel cached afterCheck whichResult =
        UpdateAction.disabled) ∧
    (channel ≠ "none" →
      locateYtDlp cached afterCheck whichResult = none →
      autoUpdateYtDlpPlan channel cached afterCheck whichResult =
        UpdateAction.noExe) ∧
    (∀ exe, channel = "nightly" →
      locateYtDlp cached afterCheck whichResult = some exe →
      autoUpdateYtDlpPlan channel cached afterCheck whichResult =
        UpdateAction.launch [exe, "--update-to", "nightly"] 120) ∧
    (∀ exe, channel ≠ "none" → channel ≠ "nightly" →
      locateYtDlp cached afterCheck whichResult = some exe →
      autoUpdateYtDlpPlan channel cached afterCheck whichResult =
        UpdateAction.launch [exe, "-U"] 120) := by
  refine ⟨?_, ?_, ?_, ?_⟩
  · intro h; simp [autoUpdateYtDlpPlan, h]
  · intro h hl; simp [autoUpdateYtDlpPlan, h, hl]
  · intro exe h hl
    have hne : channel ≠ "none" := by rw [h]; decide
    simp [autoUpdateYtDlpPlan, hne, hl, h]
  · intro exe hne hnn hl
    simp [autoUpdateYtDlpPlan, hne, hnn, hl]

/-- Witness for claim C4: on the nightly channel with the cached
executable path present, the plan is to run that executable with
--update-to nightly and the 120-second timeout. -/
theorem autoUpdateYtDlpPlan_spec_witness :
    autoUpdateYtDlpPlan ("nightly") (some ("bin/yt-dlp.exe")) none none =
      UpdateAction.launch ["bin/yt-dlp.exe", "--update-to", "nightly"] 120 :=
  (autoUpdateYtDlpPlan_spec ("nightly") (some ("bin/yt-dlp.exe")) none
    none).2.2.1 ("bin/yt-dlp.exe") rfl rfl

/-- Claim C5: the update subprocess is launched with a 120-second
timeout, and whatever its outcome — completed with any return code,
TimeoutExpired, or any other exception — the updater's except clauses
absorb it, so the updater always returns normally. -/
theorem autoUpdateYtDlp_supervised (channel : String)
    (cached afterCheck whichResult : Option String)
    (cmd : List String) (t : Nat) (o : ProcOutcome) :
    (autoUpdateYtDlpPlan channel cached afterCheck whichResult =
        UpdateAction.launch cmd t → t = 120) ∧
    (autoUpdateYtDlpResult o).isOk = true := by
  constructor
  · intro h
    unfold autoUpdateYtDlpPlan at h
    by_cases hn : channel = "none"
    · simp [hn] at h
    · simp [hn] at h
      cases hl : locateYtDlp cached afterCheck whichResult with
      | none => rw [hl] at h; simp at h
      | some exe =>
          rw [hl] at h
          simp at h
          exact h.2.symm
  · cases o with
    | completed rc out err =>
        by_cases h0 : rc = 0
        · by_cases hc :
            containsText (out ++ "\n" ++ err) upToDateMarker = true <;>
            simp [autoUpdateYtDlpResult, runYtDlpUpdate, h0, hc,
              except_ok_isOk]
        · simp [autoUpdateYtDlpResult, runYtDlpUpdate, h0, except_ok_isOk]
    | timedOut => rfl
    | raised m => rfl

/-- Witness for claim C5: at the concrete nightly plan the launched
timeout is 120, and a timed-out subprocess still yields a normal
return. -/
theorem autoUpdateYtDlp_supervised_witness :
    (120 = 120) ∧ (autoUpdateYtDlpResult ProcOutcome.timedOut).isOk = true :=
  ⟨(autoUpdateYtDlp_supervised ("nightly") (some ("bin/yt-dlp.exe")) none
      none ["bin/yt-dlp.exe", "--update-to", "nightly"] 120
      ProcOutcome.timedOut).1 rfl,
    (autoUpdateYtDlp_supervised ("nightly") (some ("bin/yt-dlp.exe")) none
      none ["bin/yt-dlp.exe", "--update-to", "nightly"] 120
      ProcOutcome.timedOut).2⟩

/-- Claim C6: auto_update_gallery_dl returns normally for every outcome
of the gallery-dl update — success, up-to-date, any failure status, or
a raised exception, which its handler logs as such — so gallery-dl can
never prevent startup. -/
theorem autoUpdateGalleryDl_total (o : GdlOutcome) :
    (autoUpdateGalleryDl o).isOk = true ∧
    (∀ m, autoUpdateGalleryDl (GdlOutcome.raised m) =
      Except.ok GdlLog.exnLogged) := by
  constructor
  · cases o with
    | returned status message =>
        by_cases h1 : status = "success"
        · simp [autoUpdateGalleryDl, galleryDlBody, h1, except_ok_isOk]
        · by_cases h2 : status = "up_to_date" <;>
            simp [autoUpdateGalleryDl, galleryDlBody, h1, h2, except_ok_isOk]
    | raised m => rfl
  · intro m; rfl

/-- Claim C1: in every reachable coordinator state the number of
running downloads never exceeds the worker-slot limit, the limit never
exceeds 8 during a session, and the startup limit is capped at 4. -/
theorem downloadManager_slots_invariant :
    (∀ s, DMReachable s → s.active ≤ s.limit ∧ s.limit ≤ 8) ∧
    (∀ configured, (initDMState configured).limit ≤ 4) := by
  constructor
  · intro s hs
    induction hs with
    | init configured =>
        refine ⟨Nat.zero_le _, ?_⟩
        simp only [initDMState]
        omega
    | step hr hst ih =>
        cases hst with
        | start h => exact ⟨h, ih.2⟩
        | finish h => exact ⟨le_trans (Nat.sub_le _ _) ih.1, ih.2⟩
        | raiseLimit n h =>
            exact ⟨le_trans ih.1 (Nat.le_min.mpr ⟨h, ih.2⟩),
              Nat.min_le_right n 8⟩
  · intro configured
    simp only [initDMState]
    omega

/-- Witness for claim C1: the state with limit 4 and one running
download is reachable (startup with configured limit 10, then one
download start) and satisfies the bounds, and a startup with
configured limit 10 is capped at 4. -/
theorem downloadManager_slots_invariant_witness :
    ((⟨4, 1⟩ : DMState).active ≤ (⟨4, 1⟩ : DMState).limit ∧
      (⟨4, 1⟩ : DMState).limit ≤ 8) ∧
    (initDMState 10).limit ≤ 4 := by
  have h0 : DMReachable ⟨4, 0⟩ := by
    have h := DMReachable.init 10
    simpa [initDMState] using h
  have h1 : DMReachable ⟨4, 1⟩ :=
    DMReachable.step h0 (DMStep.start ⟨4, 0⟩ (by decide))
  exact ⟨downloadManager_slots_invariant.1 ⟨4, 1⟩ h1,
    downloadManager_slots_invariant.2 10⟩

/-- Any lifecycle chain ending in the archived stage runs through the
remaining stages in order, and if it starts at or before the
stability check it can only have passed a succeeding check. -/
theorem lifecycle_chain_eq (checkOk : Bool) :
    ∀ (l : List Stage) (s : Stage), List.Chain (LStep checkOk) s l →
      (s :: l).getLast? = some Stage.archived →
      s :: l = stagesFrom s ∧ (stageRank s ≤ 2 → checkOk = true) := by
  intro l
  induction l with
  | nil =>
      intro s hchain hlast
      simp only [List.getLast?_singleton, Option.some.injEq] at hlast
      subst hlast
      exact ⟨rfl, fun h => absurd h (by decide)⟩
  | cons t l2 ih =>
      intro s hchain hlast
      cases hchain with
      | cons hst htail =>
          have hl2 : (t :: l2).getLast? = some Stage.archived := by
            simpa only [List.getLast?_cons_cons] using hlast
          have h2 := ih t htail hl2
          cases hst with
          | dequeue =>
              exact ⟨by rw [h2.1]; decide, fun _ => h2.2 (by decide)⟩
          | download =>
              exact ⟨by rw [h2.1]; decide, fun _ => h2.2 (by decide)⟩
          | verify h => exact ⟨by rw [h2.1]; decide, fun _ => h⟩
          | move =>
              exact ⟨by rw [h2.1]; decide, fun hh => absurd hh (by decide)⟩
          | record =>
              exact ⟨by rw [h2.1]; decide, fun hh => absurd hh (by decide)⟩

/-- Claim C2: a download that completes passes through the lifecycle
stages in the fixed order queue, active, temp-dir download, stability
check, move to output, archive record — so the file is moved only
after the stability check and archived only after the move — and the
completed lifecycle implies its stability check succeeded. -/
theorem lifecycle_fixed_order (checkOk : Bool) (l : List Stage)
    (hchain : List.Chain (LStep checkOk) Stage.queued l)
    (hlast : (Stage.queued :: l).getLast? = some Stage.archived) :
    Stage.queued :: l = [Stage.queued, Stage.active, Stage.tempDownloaded,
      Stage.stabilityChecked, Stage.movedToOutput, Stage.archived] ∧
    checkOk = true := by
  have h := lifecycle_chain_eq checkOk l Stage.queued hchain hlast
  exact ⟨h.1, h.2 (by decide)⟩

/-- Witness for claim C2: the canonical completed lifecycle trace with
a succeeding stability check satisfies the theorem's hypotheses and
yields the fixed order. -/
theorem lifecycle_fixed_order_witness :
    Stage.queued :: [Stage.active, Stage.tempDownloaded,
        Stage.stabilityChecked, Stage.movedToOutput, Stage.archived] =
      [Stage.queued, Stage.active, Stage.tempDownloaded,
        Stage.stabilityChecked, Stage.movedToOutput, Stage.archived] ∧
    true = true :=
  lifecycle_fixed_order true
    [Stage.active, Stage.tempDownloaded, Stage.stabilityChecked,
      Stage.movedToOutput, Stage.archived]
    (List.Chain.cons LStep.dequeue (List.Chain.cons LStep.download
      (List.Chain.cons (LStep.verify rfl) (List.Chain.cons LStep.move
        (List.Chain.cons LStep.record List.Chain.nil)))))
    rfl

/-- Claim C3: the completed-file operations are idempotent — moving a
file that is already in the output directory and gone from temp leaves
the state unchanged and reports success, and recording an identifier
already present in the archive leaves the state unchanged and reports
success. -/
theorem completedFileOps_idempotent :
    (∀ (s : FsState) (f : String), f ∈ s.output → f ∉ s.temp →
      moveToOutput s f = (s, true)) ∧
    (∀ (s : FsState) (f : String), f ∈ s.archive →
      recordArchive s f = (s, true)) := by
  constructor
  · intro s f h1 h2
    simp [moveToOutput, h1, h2]
  · intro s f h
    have hh : insert f s.archive = s.archive := Finset.insert_eq_self.mpr h
    simp [recordArchive, hh]

/-- Witness for claim C3: re-moving an already-moved file and
re-recording an already-archived identifier are both no-ops reporting
success on concrete states. -/
theorem completedFileOps_idempotent_witness :
    moveToOutput ⟨∅, {"a.mp4"}, ∅⟩ ("a.mp4") = (⟨∅, {"a.mp4"}, ∅⟩, true) ∧
    recordArchive ⟨∅, ∅, {"v1"}⟩ ("v1") = (⟨∅, ∅, {"v1"}⟩, true) :=
  ⟨completedFileOps_idempotent.1 ⟨∅, {"a.mp4"}, ∅⟩ ("a.mp4")
      (by simp) (by simp),
    completedFileOps_idempotent.2 ⟨∅, ∅, {"v1"}⟩ ("v1") (by simp)⟩

/-- Claim C7: every download, audio or video, is given the
--embed-metadata and --embed-thumbnail arguments and is pointed at the
external ffmpeg tool through --ffmpeg-location, so metadata and the
downloaded thumbnail are embedded into the output file via ffmpeg. -/
theorem downloads_embed_metadata_thumbnail (kind : MediaKind)
    (url ffmpegLocation : String) :
    "--embed-metadata" ∈ buildDownloadArgs kind url ffmpegLocation ∧
    "--embed-thumbnail" ∈ buildDownloadArgs kind url ffmpegLocation ∧
    "--ffmpeg-location" ∈ buildDownloadArgs kind url ffmpegLocation := by
  cases kind <;> simp [buildDownloadArgs]
